import Mathlib

/-!
Shallow embedding of the SynthVR sequencer engine
(`Source/SequenceProcessor.cpp`, class `synthvr::SequenceProcessor`).

Sample values are modelled as rationals (the C++ code uses `float`; every
comparison and product the claims depend on is exact at the magnitudes
involved).  Per-sample processing is modelled as explicit state passing over
`SeqState`, which carries exactly the member variables of the C++ class that
the processing path reads or writes.  Parameter values (read-only host
parameters in the C++ code) are gathered in `SeqParams` and held fixed, and
the per-step parameter quadruples of the constructor are modelled as one list
of `StepConfig` records, indexed by step number, with `numSteps` equal to the
list length.
-/

namespace SynthVR

/-- Modelled from the spec: the gate-mode enumeration is declared in
`SequenceProcessor.h`, which is not among the repository sources; the spec
names the four modes Silence, SinglePulse, MultiPulse and HoldForPulse, and
the `.cpp` compares the step's gate-mode value against these four named
constants (parameter range 0..3). -/
inductive GateMode where
  | silence
  | singlePulse
  | multiPulse
  | holdForPulse
deriving DecidableEq

/-- One step's four host parameters, added per step by the constructor:
`stepPitch_i` (float 0..1), `stepOn_i` (bool), `stepGateMode_i` (int 0..3),
`stepPulseCount_i` (int 1..8). -/
structure StepConfig where
  pitch : ℚ
  stepOn : Bool
  gateMode : GateMode
  pulseCount : Nat
deriving DecidableEq

/-- Constructor defaults of the per-step parameters: pitch 0.0, on true,
gate mode singlePulse, pulse count 1.  Used as the default value of an
out-of-range step read (every read performed by the engine is in range). -/
def defaultStep : StepConfig :=
  { pitch := 0, stepOn := true, gateMode := GateMode.singlePulse, pulseCount := 1 }

/-- The global host parameters the processing path reads.  The glide,
root-pitch and pitch-scale parameters only feed the external JUCE filter and
the quantization stub and are not modelled. -/
structure SeqParams where
  gateLength : ℚ
  looping : Bool
  pitchExtent : ℚ
  toggleRunning : Bool
  steps : List StepConfig
deriving DecidableEq

/-- The member variables of `SequenceProcessor` that per-sample processing
reads or writes (the JUCE glide filter and its smoothed cutoff are external
library state and are not modelled; see `updatePitch`). -/
structure SeqState where
  currentlyRunning : Bool
  previouslyRunning : Bool
  currentlyTriggered : Bool
  previouslyTriggered : Bool
  currentlyReset : Bool
  previouslyReset : Bool
  previouslyToggledRunning : Bool
  currentStep : Nat
  currentPulse : Nat
  samplesPerPulse : Nat
  samplesSinceLastPulse : Nat
  samplesSinceSecondLastPulse : Nat
  samplesSinceLastGate : Nat
  currentGateLengthSamples : ℚ
  currentGateOpen : Bool
  samplesSinceLastEndOfSequenceGate : Nat
  currentEndOfSequenceGateLengthSamples : ℚ
  currentEndOfSequenceGateOpen : Bool
  currentStepPitch : ℚ
  targetPitch : ℚ
  currentPitch : ℚ
deriving DecidableEq

/-- One sample of the four discrete input channels. -/
structure InputSample where
  clock : ℚ
  reset : ℚ
  start : ℚ
  stop : ℚ
deriving DecidableEq

/-- One sample of the three discrete output channels. -/
structure Outputs where
  trigger : ℚ
  pitch : ℚ
  eos : ℚ
deriving DecidableEq

/-- `getOnOffStatusForStep`: reads the `stepOn_i` parameter. -/
def getOnOffStatusForStep (p : SeqParams) (step : Nat) : Bool :=
  (p.steps.getD step defaultStep).stepOn

/-- `areAllStepsSkipped`: true when no step's on/off parameter is on. -/
def areAllStepsSkipped (p : SeqParams) : Bool :=
  p.steps.all fun st => !st.stepOn

/-- `getNumPulsesForStep`: reads the `stepPulseCount_i` parameter. -/
def getNumPulsesForStep (p : SeqParams) (step : Nat) : Nat :=
  (p.steps.getD step defaultStep).pulseCount

/-- `getGateModeForStep`: reads the `stepGateMode_i` parameter. -/
def getGateModeForStep (p : SeqParams) (step : Nat) : GateMode :=
  (p.steps.getD step defaultStep).gateMode

/-- `getPitchForStep`: reads the `stepPitch_i` parameter via `getValue()`;
the parameter range is 0..1 so the normalized value equals the value. -/
def getPitchForStep (p : SeqParams) (step : Nat) : ℚ :=
  (p.steps.getD step defaultStep).pitch

/-- `getGateLengthForMode` (lines 273-284).  The C++ function mutates the
member `samplesPerPulse` (substituting the fallback 5000 when it is 0) and
returns the gate length, so it is modelled as returning the pair of the
length and the updated state. -/
def getGateLengthForMode (p : SeqParams) (s : SeqState) (mode : GateMode) : ℚ × SeqState :=
  let s1 := if s.samplesPerPulse = 0 then { s with samplesPerPulse := 5000 } else s
  if mode = GateMode.singlePulse ∨ mode = GateMode.multiPulse then
    ((s1.samplesPerPulse : ℚ) * p.gateLength, s1)
  else if mode = GateMode.holdForPulse then
    ((s1.samplesPerPulse : ℚ) * (getNumPulsesForStep p s1.currentStep : ℚ) * (99 / 100), s1)
  else
    ((0 : ℚ), s1)

/-- The scan loop of line 179,
`while (!getOnOffStatusForStep(++currentStep % numSteps));`:
starting from `cur`, keeps incrementing until the step at the incremented
value modulo `numSteps` is on, and returns the incremented value itself
(NOT reduced modulo `numSteps` — the C++ loop stores the raw increment into
`currentStep`).  The C++ loop would run forever if every step were off; it is
only reached under the `areAllStepsSkipped` guard of `processBlock`, so it is
modelled with explicit fuel (`p.steps.length` at the call site suffices to
reach every step once). -/
def scanNextOnStep (p : SeqParams) : Nat → Nat → Nat
  | 0, cur => cur
  | fuel + 1, cur =>
    if getOnOffStatusForStep p ((cur + 1) % p.steps.length) then cur + 1
    else scanNextOnStep p fuel (cur + 1)

/-- Lines 207-212 of `HandleIncrementedStep`: arm the end-of-sequence gate,
sized to one measured pulse interval, unless it is already open. -/
def armEndOfSequenceGate (s : SeqState) : SeqState :=
  if s.currentEndOfSequenceGateOpen = false then
    { s with samplesSinceLastEndOfSequenceGate := 0,
             currentEndOfSequenceGateLengthSamples := (s.samplesPerPulse : ℚ),
             currentEndOfSequenceGateOpen := true }
  else s

/-- `HandleIncrementedStep` (lines 200-217): when the (raw, unreduced) step
index has run past the last step, wrap it to 0, arm the end-of-sequence gate
if it is not already open, and clear `currentlyRunning` when looping is off. -/
def HandleIncrementedStep (p : SeqParams) (s : SeqState) : SeqState :=
  if p.steps.length ≤ s.currentStep then
    let s2 := armEndOfSequenceGate { s with currentStep := 0 }
    if p.looping = false then { s2 with currentlyRunning := false } else s2
  else s

/-- Lines 164-167 of `handleNewClockTrigger`: record the just-completed
pulse interval. -/
def recordPulseTiming (s : SeqState) : SeqState :=
  { s with samplesPerPulse := s.samplesSinceLastPulse,
           samplesSinceSecondLastPulse := s.samplesSinceLastPulse,
           samplesSinceLastPulse := 0 }

/-- Lines 173-181 of `handleNewClockTrigger`: when the current step's pulse
budget is used up, reset the pulse counter, scan to the next on step and run
`HandleIncrementedStep`. -/
def advanceStep (p : SeqParams) (s : SeqState) : SeqState :=
  if getNumPulsesForStep p s.currentStep ≤ s.currentPulse then
    HandleIncrementedStep p
      { s with currentPulse := 0,
               currentStep := scanNextOnStep p p.steps.length s.currentStep }
  else s

/-- Lines 183-197 of `handleNewClockTrigger`: when (still) running, reset the
gate timer, on pulse 0 of a step (or on every pulse in multi-pulse mode)
store the gate length and open the gate unless the mode is silence, latch the
step's pitch and increment the pulse counter. -/
def openGateForStep (p : SeqParams) (s : SeqState) : SeqState :=
  if s.currentPulse = 0 ∨ getGateModeForStep p s.currentStep = GateMode.multiPulse then
    { (getGateLengthForMode p s (getGateModeForStep p s.currentStep)).2 with
        currentGateLengthSamples :=
          (getGateLengthForMode p s (getGateModeForStep p s.currentStep)).1,
        currentGateOpen := decide (getGateModeForStep p s.currentStep ≠ GateMode.silence) }
  else s

/-- Continuation of `gatePhase` below: lines 189-193, the gate-length store
and gate-open decision, are split into `openGateForStep`.  The C++ code reads
the gate mode once into a local; `openGateForStep` re-reads it at each use
from the same unchanged `currentStep`, which yields the same value
(`getGateLengthForMode` only writes `samplesPerPulse`). -/
def gatePhase (p : SeqParams) (s : SeqState) : SeqState :=
  if s.currentlyRunning then
    let s2 := openGateForStep p { s with samplesSinceLastGate := 0 }
    { s2 with currentStepPitch := getPitchForStep p s2.currentStep,
              currentPulse := s2.currentPulse + 1 }
  else s

/-- `handleNewClockTrigger` (lines 162-198): record pulse timing, then bail
out when not running, else advance step/pulse and handle the gate. -/
def handleNewClockTrigger (p : SeqParams) (s : SeqState) : SeqState :=
  let s1 := recordPulseTiming s
  if s1.currentlyRunning = false then s1
  else gatePhase p (advanceStep p s1)

/-- `handleReset` (lines 144-154): on a reset rising edge, zero the step and
pulse indices, close both gates and force running. -/
def handleReset (s : SeqState) : SeqState :=
  if s.currentlyReset = true ∧ s.previouslyReset = false then
    { s with currentStep := 0,
             currentPulse := 0,
             currentGateOpen := false,
             currentEndOfSequenceGateOpen := false,
             currentlyRunning := true }
  else s

/-- `handleStart` (lines 134-142): on a running rising edge, fabricate a
clock edge and restore the last known inter-pulse interval. -/
def handleStart (s : SeqState) : SeqState :=
  if s.currentlyRunning = true ∧ s.previouslyRunning = false then
    { s with previouslyTriggered := false,
             currentlyTriggered := true,
             samplesSinceLastPulse := s.samplesSinceSecondLastPulse }
  else s

/-- `updateGate` (lines 228-239).  Each `if` uses a short-circuited
post-increment: the since-open counter is incremented only when the gate is
open, and the comparison sees the pre-increment value. -/
def updateMainGate (s : SeqState) : SeqState :=
  if s.currentGateOpen then
    { s with samplesSinceLastGate := s.samplesSinceLastGate + 1,
             currentGateOpen :=
               !decide (s.currentGateLengthSamples ≤ (s.samplesSinceLastGate : ℚ)) }
  else s

/-- Lines 235-238 of `updateGate`: the end-of-sequence gate countdown. -/
def updateEosGate (s : SeqState) : SeqState :=
  if s.currentEndOfSequenceGateOpen then
    { s with samplesSinceLastEndOfSequenceGate := s.samplesSinceLastEndOfSequenceGate + 1,
             currentEndOfSequenceGateOpen :=
               !decide (s.currentEndOfSequenceGateLengthSamples
                         ≤ (s.samplesSinceLastEndOfSequenceGate : ℚ)) }
  else s

/-- `updateGate` (lines 228-239): the main-gate countdown followed by the
end-of-sequence countdown. -/
def updateGate (s : SeqState) : SeqState :=
  updateEosGate (updateMainGate s)

/-- `updatePitch` (lines 219-226).  Modelled from the spec: the target pitch
is the latched step pitch scaled by the pitch-extent parameter (quantization
is a documented no-op stub), and `currentPitch` is produced by the external
JUCE glide filter, whose numeric behavior is opaque to every claim here; it
is modelled as passing the target through.  Only the two pitch fields are
written. -/
def updatePitch (p : SeqParams) (s : SeqState) : SeqState :=
  let t := s.currentStepPitch * p.pitchExtent
  { s with targetPitch := t, currentPitch := t }

/-- Boolean member written to a float channel (0 or full scale). -/
def boolToSample (b : Bool) : ℚ :=
  if b then 1 else 0

/-- `writeOutputs` (lines 115-132): the end-of-sequence channel is written
unconditionally; the trigger and pitch channels carry the gate and pitch when
running and 0 otherwise.  (The host-display parameter mirrors are write-only
and not modelled.) -/
def writeOutputs (s : SeqState) : Outputs :=
  if s.currentlyRunning then
    { eos := boolToSample s.currentEndOfSequenceGateOpen,
      trigger := boolToSample s.currentGateOpen,
      pitch := s.currentPitch }
  else
    { eos := boolToSample s.currentEndOfSequenceGateOpen,
      trigger := 0,
      pitch := 0 }

/-- Lines 74-79 of `processBlock`: per-sample reads of the four control
channels.  Line 79 reads `!buffer.getSample(stopInputChannel, sample) >= 0.5f`;
by C++ precedence the logical-not binds first, so the stop condition that is
actually computed is `(stop == 0.0f ? 1.0f : 0.0f) >= 0.5f`, i.e. the stop
channel blocks running exactly when its value is nonzero, not when it is at
or above the 0.5 threshold the other three channels use. -/
def readTransport (s : SeqState) (i : InputSample) : SeqState :=
  { s with currentlyTriggered := decide ((1 : ℚ) / 2 ≤ i.clock),
           currentlyReset := decide ((1 : ℚ) / 2 ≤ i.reset),
           currentlyRunning :=
             (s.currentlyRunning || decide ((1 : ℚ) / 2 ≤ i.start))
               && decide ((1 : ℚ) / 2 ≤ (if i.stop = 0 then (1 : ℚ) else 0)) }

/-- Line 85-86 of `processBlock`: run the clock-trigger handler on a clock
rising edge unless every step is skipped. -/
def triggerPhase (p : SeqParams) (allSkipped : Bool) (s : SeqState) : SeqState :=
  if s.currentlyTriggered && !s.previouslyTriggered && !allSkipped then
    handleNewClockTrigger p s
  else s

/-- Lines 96-97 of `processBlock`: the pitch is advanced only while the gate
is open. -/
def pitchPhase (p : SeqParams) (s : SeqState) : SeqState :=
  if s.currentGateOpen then updatePitch p s else s

/-- Lines 102-106 of `processBlock`: shift the edge-detection history and
advance the free-running pulse counter. -/
def updateHistory (s : SeqState) : SeqState :=
  { s with previouslyTriggered := s.currentlyTriggered,
           previouslyReset := s.currentlyReset,
           previouslyRunning := s.currentlyRunning,
           samplesSinceLastPulse := s.samplesSinceLastPulse + 1 }

/-- One iteration of the per-sample loop of `processBlock` (lines 72-107):
transport reads, reset and start handling, clock-trigger handling, gate
countdown, pitch update, output writes, history update.  The glide-frequency
smoothing and filter-coefficient recomputation of lines 92-93 touch only the
external JUCE filter state and are not modelled. -/
def processSample (p : SeqParams) (allSkipped : Bool) (s : SeqState) (i : InputSample) :
    SeqState × Outputs :=
  let s1 := pitchPhase p (updateGate (triggerPhase p allSkipped
              (handleStart (handleReset (readTransport s i)))))
  (updateHistory s1, writeOutputs s1)

/-- The per-sample loop folded over a block of input samples. -/
def processSamples (p : SeqParams) (allSkipped : Bool) :
    SeqState → List InputSample → SeqState × List Outputs
  | s, [] => (s, [])
  | s, i :: rest =>
    let so := processSample p allSkipped s i
    let r := processSamples p allSkipped so.1 rest
    (r.1, so.2 :: r.2)

/-- `processBlock` (lines 64-113): compute the all-skipped flag once per
block, apply the run/stop toggle parameter on its rising edge, process every
sample, and record the toggle history.  (The block-level display-parameter
writes of lines 110-111 are write-only mirrors and are not modelled.) -/
def processBlock (p : SeqParams) (s : SeqState) (inputs : List InputSample) :
    SeqState × List Outputs :=
  let allSkipped := areAllStepsSkipped p
  let s1 :=
    if p.toggleRunning && !s.previouslyToggledRunning then
      { s with currentlyRunning := !s.currentlyRunning }
    else s
  let r := processSamples p allSkipped s1 inputs
  ({ r.1 with previouslyToggledRunning := p.toggleRunning }, r.2)

/-!
Helper lemmas: field-tracking facts about each phase, used to settle the
claims below.
-/

lemma readTransport_currentStep (s : SeqState) (i : InputSample) :
    (readTransport s i).currentStep = s.currentStep := rfl

lemma readTransport_currentPulse (s : SeqState) (i : InputSample) :
    (readTransport s i).currentPulse = s.currentPulse := rfl

lemma readTransport_currentGateOpen (s : SeqState) (i : InputSample) :
    (readTransport s i).currentGateOpen = s.currentGateOpen := rfl

lemma readTransport_previouslyReset (s : SeqState) (i : InputSample) :
    (readTransport s i).previouslyReset = s.previouslyReset := rfl

lemma readTransport_currentlyReset_eq_false (s : SeqState) (i : InputSample)
    (h : i.reset < 1 / 2) : (readTransport s i).currentlyReset = false := by
  simp only [readTransport]
  simpa using not_le.mpr h

lemma readTransport_running_of_not_running (s : SeqState) (i : InputSample)
    (hr : s.currentlyRunning = false) (hstart : i.start < 1 / 2) :
    (readTransport s i).currentlyRunning = false := by
  have h1 : decide ((1 : ℚ) / 2 ≤ i.start) = false := decide_eq_false (not_le.mpr hstart)
  simp only [readTransport, hr, h1, Bool.false_or, Bool.false_and]

lemma handleReset_not_fire (s : SeqState) (h : s.currentlyReset = false) :
    handleReset s = s := by
  simp [handleReset, h]

lemma handleStart_currentStep (s : SeqState) :
    (handleStart s).currentStep = s.currentStep := by
  unfold handleStart; split <;> rfl

lemma handleStart_currentPulse (s : SeqState) :
    (handleStart s).currentPulse = s.currentPulse := by
  unfold handleStart; split <;> rfl

lemma handleStart_currentGateOpen (s : SeqState) :
    (handleStart s).currentGateOpen = s.currentGateOpen := by
  unfold handleStart; split <;> rfl

lemma handleStart_currentlyRunning (s : SeqState) :
    (handleStart s).currentlyRunning = s.currentlyRunning := by
  unfold handleStart; split <;> rfl

lemma updateMainGate_currentStep (s : SeqState) :
    (updateMainGate s).currentStep = s.currentStep := by
  unfold updateMainGate; split <;> rfl

lemma updateMainGate_currentPulse (s : SeqState) :
    (updateMainGate s).currentPulse = s.currentPulse := by
  unfold updateMainGate; split <;> rfl

lemma updateMainGate_currentlyRunning (s : SeqState) :
    (updateMainGate s).currentlyRunning = s.currentlyRunning := by
  unfold updateMainGate; split <;> rfl

lemma updateMainGate_gate_mono (s : SeqState)
    (h : (updateMainGate s).currentGateOpen = true) : s.currentGateOpen = true := by
  by_cases hg : s.currentGateOpen = true
  · exact hg
  · have hg' : s.currentGateOpen = false := by simpa using hg
    rw [updateMainGate, hg'] at h
    simpa using h

lemma updateEosGate_currentStep (s : SeqState) :
    (updateEosGate s).currentStep = s.currentStep := by
  unfold updateEosGate; split <;> rfl

lemma updateEosGate_currentPulse (s : SeqState) :
    (updateEosGate s).currentPulse = s.currentPulse := by
  unfold updateEosGate; split <;> rfl

lemma updateEosGate_currentlyRunning (s : SeqState) :
    (updateEosGate s).currentlyRunning = s.currentlyRunning := by
  unfold updateEosGate; split <;> rfl

lemma updateEosGate_currentGateOpen (s : SeqState) :
    (updateEosGate s).currentGateOpen = s.currentGateOpen := by
  unfold updateEosGate; split <;> rfl

lemma updateGate_currentStep (s : SeqState) :
    (updateGate s).currentStep = s.currentStep := by
  rw [updateGate, updateEosGate_currentStep, updateMainGate_currentStep]

lemma updateGate_currentPulse (s : SeqState) :
    (updateGate s).currentPulse = s.currentPulse := by
  rw [updateGate, updateEosGate_currentPulse, updateMainGate_currentPulse]

lemma updateGate_currentlyRunning (s : SeqState) :
    (updateGate s).currentlyRunning = s.currentlyRunning := by
  rw [updateGate, updateEosGate_currentlyRunning, updateMainGate_currentlyRunning]

lemma updateGate_gate_mono (s : SeqState)
    (h : (updateGate s).currentGateOpen = true) : s.currentGateOpen = true := by
  rw [updateGate, updateEosGate_currentGateOpen] at h
  exact updateMainGate_gate_mono s h

lemma pitchPhase_currentStep (p : SeqParams) (s : SeqState) :
    (pitchPhase p s).currentStep = s.currentStep := by
  unfold pitchPhase updatePitch; split <;> rfl

lemma pitchPhase_currentPulse (p : SeqParams) (s : SeqState) :
    (pitchPhase p s).currentPulse = s.currentPulse := by
  unfold pitchPhase updatePitch; split <;> rfl

lemma pitchPhase_currentGateOpen (p : SeqParams) (s : SeqState) :
    (pitchPhase p s).currentGateOpen = s.currentGateOpen := by
  unfold pitchPhase updatePitch; split <;> rfl

lemma pitchPhase_currentlyRunning (p : SeqParams) (s : SeqState) :
    (pitchPhase p s).currentlyRunning = s.currentlyRunning := by
  unfold pitchPhase updatePitch; split <;> rfl

lemma updateHistory_currentStep (s : SeqState) :
    (updateHistory s).currentStep = s.currentStep := rfl

lemma updateHistory_currentPulse (s : SeqState) :
    (updateHistory s).currentPulse = s.currentPulse := rfl

lemma updateHistory_currentGateOpen (s : SeqState) :
    (updateHistory s).currentGateOpen = s.currentGateOpen := rfl

lemma updateHistory_currentlyRunning (s : SeqState) :
    (updateHistory s).currentlyRunning = s.currentlyRunning := rfl

lemma triggerPhase_skipped (p : SeqParams) (s : SeqState) :
    triggerPhase p true s = s := by
  simp [triggerPhase]

lemma recordPulseTiming_currentStep (s : SeqState) :
    (recordPulseTiming s).currentStep = s.currentStep := rfl

lemma recordPulseTiming_currentPulse (s : SeqState) :
    (recordPulseTiming s).currentPulse = s.currentPulse := rfl

lemma recordPulseTiming_currentGateOpen (s : SeqState) :
    (recordPulseTiming s).currentGateOpen = s.currentGateOpen := rfl

lemma recordPulseTiming_currentlyRunning (s : SeqState) :
    (recordPulseTiming s).currentlyRunning = s.currentlyRunning := rfl

lemma handleNewClockTrigger_running (p : SeqParams) (s : SeqState)
    (hr : s.currentlyRunning = true) :
    handleNewClockTrigger p s = gatePhase p (advanceStep p (recordPulseTiming s)) := by
  have h : (recordPulseTiming s).currentlyRunning = true := hr
  simp [handleNewClockTrigger, h]

lemma handleNewClockTrigger_not_running (p : SeqParams) (s : SeqState)
    (hr : s.currentlyRunning = false) :
    handleNewClockTrigger p s = recordPulseTiming s := by
  have h : (recordPulseTiming s).currentlyRunning = false := hr
  simp [handleNewClockTrigger, h]

lemma getGateLengthForMode_state (p : SeqParams) (s : SeqState) (mode : GateMode) :
    (getGateLengthForMode p s mode).2
      = { s with samplesPerPulse := if s.samplesPerPulse = 0 then 5000 else s.samplesPerPulse } := by
  unfold getGateLengthForMode
  by_cases h : s.samplesPerPulse = 0 <;> simp [h] <;> split_ifs <;> rfl

lemma armEndOfSequenceGate_currentStep (s : SeqState) :
    (armEndOfSequenceGate s).currentStep = s.currentStep := by
  unfold armEndOfSequenceGate; split <;> rfl

lemma armEndOfSequenceGate_currentPulse (s : SeqState) :
    (armEndOfSequenceGate s).currentPulse = s.currentPulse := by
  unfold armEndOfSequenceGate; split <;> rfl

lemma armEndOfSequenceGate_currentGateOpen (s : SeqState) :
    (armEndOfSequenceGate s).currentGateOpen = s.currentGateOpen := by
  unfold armEndOfSequenceGate; split <;> rfl

lemma armEndOfSequenceGate_currentlyRunning (s : SeqState) :
    (armEndOfSequenceGate s).currentlyRunning = s.currentlyRunning := by
  unfold armEndOfSequenceGate; split <;> rfl

lemma HandleIncrementedStep_currentStep (p : SeqParams) (s : SeqState) :
    (HandleIncrementedStep p s).currentStep
      = if p.steps.length ≤ s.currentStep then 0 else s.currentStep := by
  unfold HandleIncrementedStep
  by_cases h1 : p.steps.length ≤ s.currentStep
  · simp only [h1, if_true]
    split <;> simp [armEndOfSequenceGate_currentStep]
  · simp [h1]

lemma HandleIncrementedStep_currentPulse (p : SeqParams) (s : SeqState) :
    (HandleIncrementedStep p s).currentPulse = s.currentPulse := by
  unfold HandleIncrementedStep
  by_cases h1 : p.steps.length ≤ s.currentStep
  · simp only [h1, if_true]
    split <;> simp [armEndOfSequenceGate_currentPulse]
  · simp [h1]

lemma HandleIncrementedStep_currentGateOpen (p : SeqParams) (s : SeqState) :
    (HandleIncrementedStep p s).currentGateOpen = s.currentGateOpen := by
  unfold HandleIncrementedStep
  by_cases h1 : p.steps.length ≤ s.currentStep
  · simp only [h1, if_true]
    split <;> simp [armEndOfSequenceGate_currentGateOpen]
  · simp [h1]

lemma HandleIncrementedStep_currentlyRunning (p : SeqParams) (s : SeqState) :
    (HandleIncrementedStep p s).currentlyRunning
      = if p.steps.length ≤ s.currentStep ∧ p.looping = false then false
        else s.currentlyRunning := by
  unfold HandleIncrementedStep
  by_cases h1 : p.steps.length ≤ s.currentStep
  · simp only [h1, if_true]
    by_cases h2 : p.looping = false <;>
      simp [h1, h2, armEndOfSequenceGate_currentlyRunning]
  · simp [h1]

lemma openGateForStep_currentStep (p : SeqParams) (s : SeqState) :
    (openGateForStep p s).currentStep = s.currentStep := by
  unfold openGateForStep
  split <;> simp [getGateLengthForMode_state]

lemma openGateForStep_currentPulse (p : SeqParams) (s : SeqState) :
    (openGateForStep p s).currentPulse = s.currentPulse := by
  unfold openGateForStep
  split <;> simp [getGateLengthForMode_state]

lemma openGateForStep_currentlyRunning (p : SeqParams) (s : SeqState) :
    (openGateForStep p s).currentlyRunning = s.currentlyRunning := by
  unfold openGateForStep
  split <;> simp [getGateLengthForMode_state]

lemma gatePhase_currentStep (p : SeqParams) (s : SeqState) :
    (gatePhase p s).currentStep = s.currentStep := by
  unfold gatePhase
  by_cases h1 : s.currentlyRunning = true
  · simp [h1, openGateForStep_currentStep]
  · simp [h1]

lemma gatePhase_currentlyRunning (p : SeqParams) (s : SeqState) :
    (gatePhase p s).currentlyRunning = s.currentlyRunning := by
  unfold gatePhase
  by_cases h1 : s.currentlyRunning = true
  · simp [h1, openGateForStep_currentlyRunning]
  · simp [h1]

lemma gatePhase_currentPulse (p : SeqParams) (s : SeqState) :
    (gatePhase p s).currentPulse
      = if s.currentlyRunning = true then s.currentPulse + 1 else s.currentPulse := by
  unfold gatePhase
  by_cases h1 : s.currentlyRunning = true
  · simp [h1, openGateForStep_currentPulse]
  · simp [h1]

lemma advanceStep_no (p : SeqParams) (s : SeqState)
    (h : s.currentPulse < getNumPulsesForStep p s.currentStep) :
    advanceStep p s = s := by
  unfold advanceStep
  rw [if_neg (by omega)]

lemma advanceStep_yes (p : SeqParams) (s : SeqState)
    (h : getNumPulsesForStep p s.currentStep ≤ s.currentPulse) :
    advanceStep p s
      = HandleIncrementedStep p
          { s with currentPulse := 0,
                   currentStep := scanNextOnStep p p.steps.length s.currentStep } := by
  unfold advanceStep
  rw [if_pos h]

lemma advanceStep_currentGateOpen (p : SeqParams) (s : SeqState) :
    (advanceStep p s).currentGateOpen = s.currentGateOpen := by
  unfold advanceStep
  split
  · rw [HandleIncrementedStep_currentGateOpen]
  · rfl

lemma getNumPulsesForStep_pos (p : SeqParams)
    (hpc : ∀ st ∈ p.steps, 1 ≤ st.pulseCount) (i : Nat) :
    1 ≤ getNumPulsesForStep p i := by
  unfold getNumPulsesForStep
  rcases Nat.lt_or_ge i p.steps.length with h | h
  · rw [List.getD_eq_getElem _ _ h]
    exact hpc _ (List.getElem_mem h)
  · rw [List.getD_eq_default _ _ h]
    exact le_refl 1

lemma scanNextOnStep_spec (p : SeqParams) :
    ∀ (fuel cur : Nat),
      (∃ j, 1 ≤ j ∧ j ≤ fuel ∧
        getOnOffStatusForStep p ((cur + j) % p.steps.length) = true) →
      ∃ k, 1 ≤ k ∧ k ≤ fuel ∧ scanNextOnStep p fuel cur = cur + k ∧
        getOnOffStatusForStep p ((cur + k) % p.steps.length) = true ∧
        ∀ j, 1 ≤ j → j < k →
          getOnOffStatusForStep p ((cur + j) % p.steps.length) = false := by
  intro fuel
  induction fuel with
  | zero =>
    intro cur h
    obtain ⟨j, hj1, hj2, _⟩ := h
    omega
  | succ fuel ih =>
    intro cur h
    by_cases hon : getOnOffStatusForStep p ((cur + 1) % p.steps.length) = true
    · refine ⟨1, le_refl 1, by omega, ?_, hon, by omega⟩
      simp [scanNextOnStep, hon]
    · have hon' : getOnOffStatusForStep p ((cur + 1) % p.steps.length) = false := by
        simpa using hon
      obtain ⟨j, hj1, hj2, hjon⟩ := h
      have hj1' : 2 ≤ j := by
        rcases Nat.lt_or_ge j 2 with h2 | h2
        · exfalso
          have hj1e : j = 1 := by omega
          rw [hj1e] at hjon
          rw [hjon] at hon'
          exact Bool.noConfusion hon'
        · exact h2
      obtain ⟨k, hk1, hk2, hscan, hkon, hmin⟩ := ih (cur + 1)
        ⟨j - 1, by omega, by omega, by
          have heq : cur + 1 + (j - 1) = cur + j := by omega
          rw [heq]
          exact hjon⟩
      refine ⟨k + 1, by omega, by omega, ?_, ?_, ?_⟩
      · rw [scanNextOnStep, if_neg (by simp [hon'])]
        rw [hscan]
        omega
      · have heq : cur + (k + 1) = cur + 1 + k := by omega
        rw [heq]
        exact hkon
      · intro j2 hj21 hj2k
        rcases Nat.eq_or_lt_of_le hj21 with h1 | h1
        · rw [← h1]
          exact hon'
        · have hm := hmin (j2 - 1) (by omega) (by omega)
          have heq : cur + 1 + (j2 - 1) = cur + j2 := by omega
          rw [heq] at hm
          exact hm

/-!
Concrete fixtures for counterexamples and witnesses.
-/

/-- A concrete engine state with every field at zero/false, used as the base
of the concrete states below. -/
def zeroState : SeqState :=
  { currentlyRunning := false, previouslyRunning := false,
    currentlyTriggered := false, previouslyTriggered := false,
    currentlyReset := false, previouslyReset := false,
    previouslyToggledRunning := false,
    currentStep := 0, currentPulse := 0,
    samplesPerPulse := 0, samplesSinceLastPulse := 0,
    samplesSinceSecondLastPulse := 0,
    samplesSinceLastGate := 0, currentGateLengthSamples := 0,
    currentGateOpen := false,
    samplesSinceLastEndOfSequenceGate := 0,
    currentEndOfSequenceGateLengthSamples := 0,
    currentEndOfSequenceGateOpen := false,
    currentStepPitch := 0, targetPitch := 0, currentPitch := 0 }

/-- An input sample whose stop channel sits at 0.3: below the 0.5 threshold
but nonzero. -/
def stopSample : InputSample :=
  { clock := 0, reset := 0, start := 0, stop := 3 / 10 }

/-!
Claims.
-/

/-- C1.  The claim says the per-sample running update is
`(running OR start ≥ 0.5) AND NOT (stop ≥ 0.5)`, so that a stop value of 0.3
leaves a running sequencer running.  The code (line 79) instead computes
`(running OR start ≥ 0.5) AND (stop == 0)`, because
`!buffer.getSample(...) >= 0.5f` parses as `(!stop) >= 0.5f`: a stop value of
0.3 stops a running sequencer.  The code's own comment, "and stop CV is not
triggered", together with the ≥ 0.5 threshold used for the other three
channels, shows the claim describes the intent and the code has a precedence
slip. -/
theorem C1_running_update_stop_compares_nonzero :
    (∀ (s : SeqState) (i : InputSample),
      (readTransport s i).currentlyRunning
        = ((s.currentlyRunning || decide ((1 : ℚ) / 2 ≤ i.start))
            && decide (i.stop = 0))) ∧
    stopSample.stop < 1 / 2 ∧
    (readTransport { zeroState with currentlyRunning := true }
        stopSample).currentlyRunning = false := by
  refine ⟨?_, by norm_num [stopSample],
    by norm_num [readTransport, zeroState, stopSample]⟩
  intro s i
  by_cases h : i.stop = 0 <;> simp [readTransport, h] <;> norm_num

/-- C7.  A reset rising edge sets currentStep = 0 and currentPulse = 0,
closes the main gate and the end-of-sequence gate, and forces running = true;
applying the reset handler again yields the same state (idempotent). -/
theorem C7_reset_edge_effects (s : SeqState)
    (h1 : s.currentlyReset = true) (h2 : s.previouslyReset = false) :
    (handleReset s).currentStep = 0 ∧
    (handleReset s).currentPulse = 0 ∧
    (handleReset s).currentGateOpen = false ∧
    (handleReset s).currentEndOfSequenceGateOpen = false ∧
    (handleReset s).currentlyRunning = true ∧
    handleReset (handleReset s) = handleReset s := by
  unfold handleReset
  simp [h1, h2]

/-- Witness for C7 at a concrete reset-edge state. -/
def resetEdgeState : SeqState :=
  { zeroState with currentlyReset := true, currentStep := 3, currentPulse := 2,
                   currentGateOpen := true, currentEndOfSequenceGateOpen := true,
                   samplesPerPulse := 77 }

theorem C7_reset_edge_effects_witness :
    (resetEdgeState.currentlyReset = true ∧ resetEdgeState.previouslyReset = false) ∧
    ((handleReset resetEdgeState).currentStep = 0 ∧
     (handleReset resetEdgeState).currentPulse = 0 ∧
     (handleReset resetEdgeState).currentGateOpen = false ∧
     (handleReset resetEdgeState).currentEndOfSequenceGateOpen = false ∧
     (handleReset resetEdgeState).currentlyRunning = true ∧
     handleReset (handleReset resetEdgeState) = handleReset resetEdgeState) :=
  ⟨⟨rfl, rfl⟩, C7_reset_edge_effects resetEdgeState rfl rfl⟩

/-- C9.  On every sample the written outputs are: trigger = running ?
currentGateOpen : 0, pitch = running ? currentPitch : 0, end-of-sequence =
currentEndOfSequenceGateOpen unconditionally (independent of the running
flag). -/
theorem C9_output_composition (s : SeqState) (b : Bool) :
    (writeOutputs s).trigger
      = (if s.currentlyRunning = true then boolToSample s.currentGateOpen else 0) ∧
    (writeOutputs s).pitch
      = (if s.currentlyRunning = true then s.currentPitch else 0) ∧
    (writeOutputs s).eos = boolToSample s.currentEndOfSequenceGateOpen ∧
    (writeOutputs { s with currentlyRunning := b }).eos = (writeOutputs s).eos := by
  by_cases h : s.currentlyRunning = true <;> cases b <;> simp [writeOutputs, h]

/-- C10.  The reset handler modifies only the step/pulse indices, the two
gate-open flags and the running flag: the pulse-interval measurements, the
latched and filtered pitch values, the stored gate lengths and the gate
timers are all left unchanged. -/
theorem C10_reset_preserves_timing_and_pitch (s : SeqState) :
    (handleReset s).samplesPerPulse = s.samplesPerPulse ∧
    (handleReset s).samplesSinceLastPulse = s.samplesSinceLastPulse ∧
    (handleReset s).samplesSinceSecondLastPulse = s.samplesSinceSecondLastPulse ∧
    (handleReset s).currentStepPitch = s.currentStepPitch ∧
    (handleReset s).targetPitch = s.targetPitch ∧
    (handleReset s).currentPitch = s.currentPitch ∧
    (handleReset s).currentGateLengthSamples = s.currentGateLengthSamples ∧
    (handleReset s).currentEndOfSequenceGateLengthSamples
      = s.currentEndOfSequenceGateLengthSamples ∧
    (handleReset s).samplesSinceLastGate = s.samplesSinceLastGate ∧
    (handleReset s).samplesSinceLastEndOfSequenceGate
      = s.samplesSinceLastEndOfSequenceGate := by
  unfold handleReset
  split <;> simp

lemma openGateForStep_silence (p : SeqParams) (s : SeqState)
    (hm : getGateModeForStep p s.currentStep = GateMode.silence)
    (h : (openGateForStep p s).currentGateOpen = true) : s.currentGateOpen = true := by
  unfold openGateForStep at h
  split at h
  · simp [hm] at h
  · exact h

lemma gatePhase_silence (p : SeqParams) (s : SeqState)
    (hm : getGateModeForStep p s.currentStep = GateMode.silence)
    (h : (gatePhase p s).currentGateOpen = true) : s.currentGateOpen = true := by
  unfold gatePhase at h
  by_cases hr : s.currentlyRunning = true
  · rw [if_pos hr] at h
    simp only [] at h
    exact openGateForStep_silence p { s with samplesSinceLastGate := 0 } hm h
  · rw [if_neg hr] at h
    exact h

lemma handleNewClockTrigger_silence (p : SeqParams) (s : SeqState)
    (hm : getGateModeForStep p (handleNewClockTrigger p s).currentStep = GateMode.silence)
    (h : (handleNewClockTrigger p s).currentGateOpen = true) :
    s.currentGateOpen = true := by
  by_cases hr : s.currentlyRunning = true
  · rw [handleNewClockTrigger_running p s hr] at hm h
    rw [gatePhase_currentStep] at hm
    have h2 := gatePhase_silence p (advanceStep p (recordPulseTiming s)) hm h
    rw [advanceStep_currentGateOpen] at h2
    exact h2
  · have hr' : s.currentlyRunning = false := by simpa using hr
    rw [handleNewClockTrigger_not_running p s hr'] at h
    exact h

/-- C4.  With a measured pulse interval, the gate length is
`samplesPerPulse * gateLengthFraction` for SinglePulse and MultiPulse,
`samplesPerPulse * pulseCount(currentStep) * 0.99` (a fraction strictly below
1) for HoldForPulse, and 0 for Silence; and a clock trigger whose resulting
current step has gate mode Silence never turns the gate from closed to
open. -/
theorem C4_gate_length_formulas (p : SeqParams) (s : SeqState)
    (h : s.samplesPerPulse ≠ 0) :
    (getGateLengthForMode p s GateMode.singlePulse).1
      = (s.samplesPerPulse : ℚ) * p.gateLength ∧
    (getGateLengthForMode p s GateMode.multiPulse).1
      = (s.samplesPerPulse : ℚ) * p.gateLength ∧
    (getGateLengthForMode p s GateMode.holdForPulse).1
      = (s.samplesPerPulse : ℚ) * (getNumPulsesForStep p s.currentStep : ℚ) * (99 / 100) ∧
    ((99 : ℚ) / 100) < 1 ∧
    (getGateLengthForMode p s GateMode.silence).1 = 0 ∧
    (getGateModeForStep p (handleNewClockTrigger p s).currentStep = GateMode.silence →
      (handleNewClockTrigger p s).currentGateOpen = true →
      s.currentGateOpen = true) := by
  refine ⟨?_, ?_, ?_, by norm_num, ?_, handleNewClockTrigger_silence p s⟩
  · simp [getGateLengthForMode, h]
  · simp [getGateLengthForMode, h]
  · simp [getGateLengthForMode, h]
  · simp [getGateLengthForMode, h]

/-- Parameters with a single enabled SinglePulse step of pulse count 1. -/
def oneStepParams : SeqParams :=
  { gateLength := 3 / 4, looping := true, pitchExtent := 1 / 5, toggleRunning := false,
    steps := [{ pitch := 0, stepOn := true, gateMode := GateMode.singlePulse,
                pulseCount := 1 }] }

/-- State with a measured pulse interval of 100 samples. -/
def measuredState : SeqState := { zeroState with samplesPerPulse := 100 }

theorem C4_gate_length_formulas_witness :
    measuredState.samplesPerPulse ≠ 0 ∧
    ((getGateLengthForMode oneStepParams measuredState GateMode.singlePulse).1
       = (measuredState.samplesPerPulse : ℚ) * oneStepParams.gateLength ∧
     (getGateLengthForMode oneStepParams measuredState GateMode.multiPulse).1
       = (measuredState.samplesPerPulse : ℚ) * oneStepParams.gateLength ∧
     (getGateLengthForMode oneStepParams measuredState GateMode.holdForPulse).1
       = (measuredState.samplesPerPulse : ℚ)
           * (getNumPulsesForStep oneStepParams measuredState.currentStep : ℚ)
           * (99 / 100) ∧
     ((99 : ℚ) / 100) < 1 ∧
     (getGateLengthForMode oneStepParams measuredState GateMode.silence).1 = 0 ∧
     (getGateModeForStep oneStepParams
          (handleNewClockTrigger oneStepParams measuredState).currentStep
        = GateMode.silence →
      (handleNewClockTrigger oneStepParams measuredState).currentGateOpen = true →
      measuredState.currentGateOpen = true)) :=
  ⟨by decide, C4_gate_length_formulas oneStepParams measuredState (by decide)⟩

/-- C5 counterexample.  The claim says computing a gate length leaves all
engine state, including samplesPerPulse itself, unchanged, and that the
fallback substitution makes the returned gate length nonzero.  At
samplesPerPulse = 0 with mode Silence, the call stores the fallback 5000 into
samplesPerPulse (a state change) and still returns the zero gate length. -/
theorem C5_counterexample :
    zeroState.samplesPerPulse = 0 ∧
    (getGateLengthForMode oneStepParams zeroState GateMode.silence).2.samplesPerPulse
      = 5000 ∧
    (getGateLengthForMode oneStepParams zeroState GateMode.silence).2 ≠ zeroState ∧
    (getGateLengthForMode oneStepParams zeroState GateMode.silence).1 = 0 := by
  refine ⟨rfl, rfl, ?_, rfl⟩
  intro hcontra
  have h1 : (getGateLengthForMode oneStepParams zeroState GateMode.silence).2.samplesPerPulse
      = 5000 := rfl
  rw [hcontra] at h1
  exact absurd h1 (by decide)

/-- C5 (amended).  Computing a gate length leaves every engine-state field
except samplesPerPulse unchanged; when samplesPerPulse is 0 the fallback 5000
is stored into it, and the gate length returned from the fallback is positive
for SinglePulse/MultiPulse whenever the gate-length fraction is positive, and
positive for HoldForPulse whenever every configured pulse count is at least
1; Silence still returns 0. -/
theorem C5_gate_length_effects (p : SeqParams) (s : SeqState) (mode : GateMode)
    (hpc : ∀ st ∈ p.steps, 1 ≤ st.pulseCount) :
    (getGateLengthForMode p s mode).2
      = { s with samplesPerPulse :=
            if s.samplesPerPulse = 0 then 5000 else s.samplesPerPulse } ∧
    (s.samplesPerPulse = 0 → (getGateLengthForMode p s mode).2.samplesPerPulse = 5000) ∧
    (s.samplesPerPulse = 0 → 0 < p.gateLength →
      (mode = GateMode.singlePulse ∨ mode = GateMode.multiPulse) →
      0 < (getGateLengthForMode p s mode).1) ∧
    (s.samplesPerPulse = 0 → mode = GateMode.holdForPulse →
      0 < (getGateLengthForMode p s mode).1) ∧
    (mode = GateMode.silence → (getGateLengthForMode p s mode).1 = 0) := by
  refine ⟨getGateLengthForMode_state p s mode, ?_, ?_, ?_, ?_⟩
  · intro h0
    rw [getGateLengthForMode_state p s mode]
    simp [h0]
  · intro h0 hgl hm
    have hlen : (getGateLengthForMode p s mode).1 = (5000 : ℚ) * p.gateLength := by
      rcases hm with hm | hm <;> subst hm <;> simp [getGateLengthForMode, h0]
    rw [hlen]
    positivity
  · intro h0 hm
    subst hm
    have hpos := getNumPulsesForStep_pos p hpc s.currentStep
    have hlen : (getGateLengthForMode p s GateMode.holdForPulse).1
        = (5000 : ℚ) * (getNumPulsesForStep p s.currentStep : ℚ) * (99 / 100) := by
      simp [getGateLengthForMode, h0]
    rw [hlen]
    have hq : (0 : ℚ) < (getNumPulsesForStep p s.currentStep : ℚ) := by
      exact_mod_cast Nat.lt_of_lt_of_le Nat.zero_lt_one hpos
    positivity
  · intro hm
    subst hm
    simp [getGateLengthForMode]

theorem C5_gate_length_effects_witness :
    (∀ st ∈ oneStepParams.steps, 1 ≤ st.pulseCount) ∧
    ((getGateLengthForMode oneStepParams zeroState GateMode.holdForPulse).2
       = { zeroState with samplesPerPulse :=
             if zeroState.samplesPerPulse = 0 then 5000 else zeroState.samplesPerPulse } ∧
     (zeroState.samplesPerPulse = 0 →
       (getGateLengthForMode oneStepParams zeroState GateMode.holdForPulse).2.samplesPerPulse
         = 5000) ∧
     (zeroState.samplesPerPulse = 0 → 0 < oneStepParams.gateLength →
       (GateMode.holdForPulse = GateMode.singlePulse ∨
        GateMode.holdForPulse = GateMode.multiPulse) →
       0 < (getGateLengthForMode oneStepParams zeroState GateMode.holdForPulse).1) ∧
     (zeroState.samplesPerPulse = 0 → GateMode.holdForPulse = GateMode.holdForPulse →
       0 < (getGateLengthForMode oneStepParams zeroState GateMode.holdForPulse).1) ∧
     (GateMode.holdForPulse = GateMode.silence →
       (getGateLengthForMode oneStepParams zeroState GateMode.holdForPulse).1 = 0)) :=
  ⟨by decide,
   C5_gate_length_effects oneStepParams zeroState GateMode.holdForPulse (by decide)⟩

/-- Parameters whose step 0 is disabled and step 1 enabled (both single-pulse
steps of pulse count 1). -/
def skipFirstParams : SeqParams :=
  { gateLength := 3 / 4, looping := true, pitchExtent := 1 / 5, toggleRunning := false,
    steps := [{ pitch := 0, stepOn := false, gateMode := GateMode.singlePulse,
                pulseCount := 1 },
              { pitch := 1 / 2, stepOn := true, gateMode := GateMode.singlePulse,
                pulseCount := 1 }] }

/-- A running state sitting on step 1 with its pulse budget used up, so the
next clock trigger advances (and wraps). -/
def lastStepState : SeqState :=
  { zeroState with currentlyRunning := true, previouslyRunning := true,
                   currentStep := 1, currentPulse := 1,
                   samplesPerPulse := 100, samplesSinceLastPulse := 100 }

/-- C2 counterexample.  The claim says a disabled step is never selected as
the current step.  With step 0 disabled and step 1 enabled, a clock trigger
on step 1 wraps: the scan runs past the end of the sequence to the enabled
step 1, but `HandleIncrementedStep` resets the raw index to 0, selecting the
disabled step 0 as the current step (and the same trigger then opens the
gate for it). -/
theorem C2_counterexample :
    (handleNewClockTrigger skipFirstParams lastStepState).currentStep = 0 ∧
    getOnOffStatusForStep skipFirstParams 0 = false ∧
    (handleNewClockTrigger skipFirstParams lastStepState).currentGateOpen = true :=
  ⟨rfl, rfl, rfl⟩

/-- C2 (amended).  Provided step 0 is enabled, a clock trigger that fires a
step advancement moves currentStep to the first enabled step after the
current one in ascending circular (modulo numSteps) order, skipping the
disabled steps in between; in particular the selected step is always enabled.
(When step 0 is disabled, the end-of-sequence wrap of `HandleIncrementedStep`
can land on the disabled step 0, as the counterexample shows.) -/
theorem C2_advance_selects_next_enabled (p : SeqParams) (s : SeqState)
    (h0 : getOnOffStatusForStep p 0 = true)
    (hs : s.currentStep < p.steps.length)
    (hr : s.currentlyRunning = true)
    (hp : getNumPulsesForStep p s.currentStep ≤ s.currentPulse) :
    ∃ k, 1 ≤ k ∧ k ≤ p.steps.length ∧
      (handleNewClockTrigger p s).currentStep = (s.currentStep + k) % p.steps.length ∧
      getOnOffStatusForStep p ((handleNewClockTrigger p s).currentStep) = true ∧
      ∀ j, 1 ≤ j → j < k →
        getOnOffStatusForStep p ((s.currentStep + j) % p.steps.length) = false := by
  have hwit : ∃ j, 1 ≤ j ∧ j ≤ p.steps.length ∧
      getOnOffStatusForStep p ((s.currentStep + j) % p.steps.length) = true := by
    refine ⟨p.steps.length - s.currentStep, by omega, by omega, ?_⟩
    have heq : s.currentStep + (p.steps.length - s.currentStep) = p.steps.length := by
      omega
    rw [heq, Nat.mod_self]
    exact h0
  obtain ⟨k, hk1, hkn, hscan, hkon, hmin⟩ :=
    scanNextOnStep_spec p p.steps.length s.currentStep hwit
  rw [handleNewClockTrigger_running p s hr, gatePhase_currentStep,
      advanceStep_yes p (recordPulseTiming s) hp, HandleIncrementedStep_currentStep]
  simp only [recordPulseTiming_currentStep]
  rcases Nat.lt_or_ge (scanNextOnStep p p.steps.length s.currentStep)
      p.steps.length with hlt | hge
  · have hck : s.currentStep + k < p.steps.length := by omega
    refine ⟨k, hk1, hkn, ?_, ?_, hmin⟩
    · rw [if_neg (not_le.mpr hlt), hscan, Nat.mod_eq_of_lt hck]
    · rw [if_neg (not_le.mpr hlt), hscan]
      rw [← Nat.mod_eq_of_lt hck]
      exact hkon
  · have hckn : s.currentStep + k = p.steps.length := by
      by_contra hne
      have hgt : p.steps.length < s.currentStep + k := by omega
      have hj := hmin (p.steps.length - s.currentStep) (by omega) (by omega)
      have heq : s.currentStep + (p.steps.length - s.currentStep) = p.steps.length := by
        omega
      rw [heq, Nat.mod_self] at hj
      rw [h0] at hj
      exact Bool.noConfusion hj
    refine ⟨k, hk1, hkn, ?_, ?_, hmin⟩
    · rw [if_pos hge, hckn, Nat.mod_self]
    · rw [if_pos hge]
      exact h0

/-- Parameters with step 0 enabled, step 1 disabled and step 2 enabled. -/
def gapParams : SeqParams :=
  { gateLength := 3 / 4, looping := true, pitchExtent := 1 / 5, toggleRunning := false,
    steps := [{ pitch := 0, stepOn := true, gateMode := GateMode.singlePulse,
                pulseCount := 1 },
              { pitch := 0, stepOn := false, gateMode := GateMode.singlePulse,
                pulseCount := 1 },
              { pitch := 0, stepOn := true, gateMode := GateMode.singlePulse,
                pulseCount := 1 }] }

/-- A running state on step 0 with its pulse budget used up. -/
def advanceReadyState : SeqState :=
  { zeroState with currentlyRunning := true, previouslyRunning := true,
                   currentStep := 0, currentPulse := 1,
                   samplesPerPulse := 100, samplesSinceLastPulse := 100 }

theorem C2_advance_selects_next_enabled_witness :
    (getOnOffStatusForStep gapParams 0 = true ∧
     advanceReadyState.currentStep < gapParams.steps.length ∧
     advanceReadyState.currentlyRunning = true ∧
     getNumPulsesForStep gapParams advanceReadyState.currentStep
       ≤ advanceReadyState.currentPulse) ∧
    (∃ k, 1 ≤ k ∧ k ≤ gapParams.steps.length ∧
      (handleNewClockTrigger gapParams advanceReadyState).currentStep
        = (advanceReadyState.currentStep + k) % gapParams.steps.length ∧
      getOnOffStatusForStep gapParams
        ((handleNewClockTrigger gapParams advanceReadyState).currentStep) = true ∧
      ∀ j, 1 ≤ j → j < k →
        getOnOffStatusForStep gapParams
          ((advanceReadyState.currentStep + j) % gapParams.steps.length) = false) :=
  ⟨⟨rfl, by decide, rfl, by decide⟩,
   C2_advance_selects_next_enabled gapParams advanceReadyState rfl (by decide) rfl
     (by decide)⟩

lemma HandleIncrementedStep_step_lt (p : SeqParams) (u : SeqState)
    (hn : 0 < p.steps.length) :
    (HandleIncrementedStep p u).currentStep < p.steps.length := by
  rw [HandleIncrementedStep_currentStep]
  split_ifs with h
  · exact hn
  · omega

lemma gatePhase_inv (p : SeqParams) (u : SeqState)
    (hstep : u.currentStep < p.steps.length)
    (hrun : u.currentlyRunning = true →
      u.currentPulse < getNumPulsesForStep p u.currentStep)
    (hle : u.currentPulse ≤ getNumPulsesForStep p u.currentStep) :
    (gatePhase p u).currentStep < p.steps.length ∧
    (gatePhase p u).currentPulse
      ≤ getNumPulsesForStep p (gatePhase p u).currentStep := by
  rw [gatePhase_currentStep, gatePhase_currentPulse]
  refine ⟨hstep, ?_⟩
  split_ifs with h
  · have := hrun h
    omega
  · exact hle

lemma handleNewClockTrigger_inv (p : SeqParams) (s : SeqState)
    (hn : 0 < p.steps.length)
    (hpc : ∀ st ∈ p.steps, 1 ≤ st.pulseCount)
    (h1 : s.currentStep < p.steps.length)
    (h2 : s.currentPulse ≤ getNumPulsesForStep p s.currentStep) :
    (handleNewClockTrigger p s).currentStep < p.steps.length ∧
    (handleNewClockTrigger p s).currentPulse
      ≤ getNumPulsesForStep p (handleNewClockTrigger p s).currentStep := by
  by_cases hr : s.currentlyRunning = true
  · rw [handleNewClockTrigger_running p s hr]
    by_cases hadv : getNumPulsesForStep p s.currentStep ≤ s.currentPulse
    · rw [advanceStep_yes p (recordPulseTiming s) hadv]
      apply gatePhase_inv
      · exact HandleIncrementedStep_step_lt p _ hn
      · intro _
        rw [HandleIncrementedStep_currentPulse]
        exact Nat.lt_of_lt_of_le Nat.zero_lt_one
          (getNumPulsesForStep_pos p hpc _)
      · rw [HandleIncrementedStep_currentPulse]
        exact Nat.zero_le _
    · rw [advanceStep_no p (recordPulseTiming s)
        (by simp only [recordPulseTiming_currentStep, recordPulseTiming_currentPulse]
            omega)]
      apply gatePhase_inv
      · exact h1
      · intro _
        simp only [recordPulseTiming_currentStep, recordPulseTiming_currentPulse]
        omega
      · exact h2
  · rw [handleNewClockTrigger_not_running p s (by simpa using hr)]
    exact ⟨h1, h2⟩

lemma handleReset_inv (p : SeqParams) (s : SeqState)
    (hn : 0 < p.steps.length)
    (h1 : s.currentStep < p.steps.length)
    (h2 : s.currentPulse ≤ getNumPulsesForStep p s.currentStep) :
    (handleReset s).currentStep < p.steps.length ∧
    (handleReset s).currentPulse
      ≤ getNumPulsesForStep p (handleReset s).currentStep := by
  unfold handleReset
  split
  · exact ⟨hn, Nat.zero_le _⟩
  · exact ⟨h1, h2⟩

lemma triggerPhase_inv (p : SeqParams) (b : Bool) (s : SeqState)
    (hn : 0 < p.steps.length)
    (hpc : ∀ st ∈ p.steps, 1 ≤ st.pulseCount)
    (h1 : s.currentStep < p.steps.length)
    (h2 : s.currentPulse ≤ getNumPulsesForStep p s.currentStep) :
    (triggerPhase p b s).currentStep < p.steps.length ∧
    (triggerPhase p b s).currentPulse
      ≤ getNumPulsesForStep p (triggerPhase p b s).currentStep := by
  unfold triggerPhase
  split
  · exact handleNewClockTrigger_inv p s hn hpc h1 h2
  · exact ⟨h1, h2⟩

/-- An input sample carrying a clock rising edge and nothing else. -/
def clockTick : InputSample := { clock := 1, reset := 0, start := 0, stop := 0 }

/-- A running state parked on step 0 at pulse 0, with a measured interval of
50 samples. -/
def runningIdleState : SeqState :=
  { zeroState with currentlyRunning := true, previouslyRunning := true,
                   samplesPerPulse := 50, samplesSinceLastPulse := 50 }

/-- C3 counterexample.  The claim says that after each sample completes,
currentPulse lies in [0, pulseCount(currentStep) - 1].  With the single
enabled step configured with pulseCount 1, processing one clock-edge sample
leaves currentPulse = 1 = pulseCount(currentStep), outside the claimed
interval [0, 0] (the code increments the pulse counter after the gate
decisions and only resets it on the next trigger). -/
theorem C3_counterexample :
    (processBlock oneStepParams runningIdleState [clockTick]).1.currentPulse = 1 ∧
    getNumPulsesForStep oneStepParams
      ((processBlock oneStepParams runningIdleState [clockTick]).1.currentStep) = 1 := by
  constructor <;>
    norm_num [processBlock, processSamples, processSample, areAllStepsSkipped,
      oneStepParams, runningIdleState, clockTick, zeroState, readTransport,
      handleReset, handleStart, triggerPhase, handleNewClockTrigger,
      recordPulseTiming, advanceStep, gatePhase, openGateForStep,
      getGateLengthForMode, getGateModeForStep, getNumPulsesForStep,
      getOnOffStatusForStep, getPitchForStep, HandleIncrementedStep,
      armEndOfSequenceGate, scanNextOnStep, updateGate, updateMainGate,
      updateEosGate, pitchPhase, updatePitch, updateHistory, defaultStep,
      show GateMode.singlePulse ≠ GateMode.silence from fun h => GateMode.noConfusion h,
      show GateMode.singlePulse ≠ GateMode.multiPulse from fun h => GateMode.noConfusion h,
      show GateMode.singlePulse ≠ GateMode.holdForPulse from fun h => GateMode.noConfusion h]

/-- C3 (amended).  After each sample's processing completes, the engine state
satisfies currentStep ∈ [0, numSteps) and currentPulse ∈
[0, pulseCount(currentStep)] — the pulse index can momentarily equal the
step's pulse count (it is reset on the next trigger), so the upper bound is
inclusive, not pulseCount - 1 as claimed. -/
theorem C3_state_invariant (p : SeqParams) (b : Bool) (s : SeqState) (i : InputSample)
    (hn : 0 < p.steps.length)
    (hpc : ∀ st ∈ p.steps, 1 ≤ st.pulseCount)
    (h1 : s.currentStep < p.steps.length)
    (h2 : s.currentPulse ≤ getNumPulsesForStep p s.currentStep) :
    (processSample p b s i).1.currentStep < p.steps.length ∧
    (processSample p b s i).1.currentPulse
      ≤ getNumPulsesForStep p ((processSample p b s i).1.currentStep) := by
  have hps : (processSample p b s i).1
      = updateHistory (pitchPhase p (updateGate (triggerPhase p b
          (handleStart (handleReset (readTransport s i)))))) := rfl
  rw [hps]
  have k1 := handleReset_inv p (readTransport s i) hn h1 h2
  have k2a : (handleStart (handleReset (readTransport s i))).currentStep
      < p.steps.length := by
    rw [handleStart_currentStep]
    exact k1.1
  have k2b : (handleStart (handleReset (readTransport s i))).currentPulse
      ≤ getNumPulsesForStep p
          ((handleStart (handleReset (readTransport s i))).currentStep) := by
    rw [handleStart_currentStep, handleStart_currentPulse]
    exact k1.2
  have k3 := triggerPhase_inv p b _ hn hpc k2a k2b
  constructor
  · rw [updateHistory_currentStep, pitchPhase_currentStep, updateGate_currentStep]
    exact k3.1
  · rw [updateHistory_currentStep, pitchPhase_currentStep, updateGate_currentStep,
        updateHistory_currentPulse, pitchPhase_currentPulse, updateGate_currentPulse]
    exact k3.2

theorem C3_state_invariant_witness :
    (0 < oneStepParams.steps.length ∧
     (∀ st ∈ oneStepParams.steps, 1 ≤ st.pulseCount) ∧
     runningIdleState.currentStep < oneStepParams.steps.length ∧
     runningIdleState.currentPulse
       ≤ getNumPulsesForStep oneStepParams runningIdleState.currentStep) ∧
    ((processSample oneStepParams false runningIdleState clockTick).1.currentStep
       < oneStepParams.steps.length ∧
     (processSample oneStepParams false runningIdleState clockTick).1.currentPulse
       ≤ getNumPulsesForStep oneStepParams
           ((processSample oneStepParams false runningIdleState clockTick).1.currentStep)) :=
  ⟨⟨by decide, by decide, by decide, by decide⟩,
   C3_state_invariant oneStepParams false runningIdleState clockTick
     (by decide) (by decide) (by decide) (by decide)⟩

lemma processSample_freeze (p : SeqParams) (s : SeqState) (i : InputSample)
    (hreset : i.reset < 1 / 2) :
    (processSample p true s i).1.currentStep = s.currentStep ∧
    (processSample p true s i).1.currentPulse = s.currentPulse ∧
    ((processSample p true s i).1.currentGateOpen = true →
      s.currentGateOpen = true) := by
  have hps : (processSample p true s i).1
      = updateHistory (pitchPhase p (updateGate (triggerPhase p true
          (handleStart (handleReset (readTransport s i)))))) := rfl
  rw [hps, triggerPhase_skipped]
  rw [handleReset_not_fire _ (readTransport_currentlyReset_eq_false s i hreset)]
  refine ⟨?_, ?_, ?_⟩
  · rw [updateHistory_currentStep, pitchPhase_currentStep, updateGate_currentStep,
        handleStart_currentStep, readTransport_currentStep]
  · rw [updateHistory_currentPulse, pitchPhase_currentPulse, updateGate_currentPulse,
        handleStart_currentPulse, readTransport_currentPulse]
  · intro h
    rw [updateHistory_currentGateOpen, pitchPhase_currentGateOpen] at h
    have h2 := updateGate_gate_mono _ h
    rw [handleStart_currentGateOpen, readTransport_currentGateOpen] at h2
    exact h2

lemma processSamples_freeze (p : SeqParams) :
    ∀ (inputs : List InputSample) (s : SeqState),
      (∀ i ∈ inputs, i.reset < 1 / 2) →
      (processSamples p true s inputs).1.currentStep = s.currentStep ∧
      (processSamples p true s inputs).1.currentPulse = s.currentPulse ∧
      ((processSamples p true s inputs).1.currentGateOpen = true →
        s.currentGateOpen = true) := by
  intro inputs
  induction inputs with
  | nil =>
    intro s _
    exact ⟨rfl, rfl, fun h => h⟩
  | cons i rest ih =>
    intro s h
    have hi := processSample_freeze p s i (h i (by simp))
    have hr := ih (processSample p true s i).1 (fun j hj => h j (by simp [hj]))
    have hcons : (processSamples p true s (i :: rest)).1
        = (processSamples p true (processSample p true s i).1 rest).1 := rfl
    rw [hcons]
    exact ⟨hr.1.trans hi.1, hr.2.1.trans hi.2.1, fun hg => hi.2.2 (hr.2.2 hg)⟩

/-- C6.  If every step is disabled, processing any block of samples that
carries no reset edge leaves currentStep and currentPulse exactly unchanged
and never opens the gate (the countdown may still close an already-open
gate): clock edges are ignored entirely. -/
theorem C6_all_disabled_freezes (p : SeqParams) (s : SeqState)
    (inputs : List InputSample)
    (hall : areAllStepsSkipped p = true)
    (hreset : ∀ i ∈ inputs, i.reset < 1 / 2) :
    (processBlock p s inputs).1.currentStep = s.currentStep ∧
    (processBlock p s inputs).1.currentPulse = s.currentPulse ∧
    ((processBlock p s inputs).1.currentGateOpen = true →
      s.currentGateOpen = true) := by
  set t : SeqState :=
    if p.toggleRunning && !s.previouslyToggledRunning then
      { s with currentlyRunning := !s.currentlyRunning }
    else s with ht
  have htstep : t.currentStep = s.currentStep := by rw [ht]; split <;> rfl
  have htpulse : t.currentPulse = s.currentPulse := by rw [ht]; split <;> rfl
  have htgate : t.currentGateOpen = s.currentGateOpen := by rw [ht]; split <;> rfl
  have hpb1 : (processBlock p s inputs).1.currentStep
      = (processSamples p (areAllStepsSkipped p) t inputs).1.currentStep := rfl
  have hpb2 : (processBlock p s inputs).1.currentPulse
      = (processSamples p (areAllStepsSkipped p) t inputs).1.currentPulse := rfl
  have hpb3 : (processBlock p s inputs).1.currentGateOpen
      = (processSamples p (areAllStepsSkipped p) t inputs).1.currentGateOpen := rfl
  rw [hall] at hpb1 hpb2 hpb3
  have hfr := processSamples_freeze p inputs t hreset
  refine ⟨?_, ?_, ?_⟩
  · rw [hpb1, hfr.1, htstep]
  · rw [hpb2, hfr.2.1, htpulse]
  · intro hg
    rw [hpb3] at hg
    have := hfr.2.2 hg
    rw [htgate] at this
    exact this

/-- Parameters in which every step is disabled. -/
def allOffParams : SeqParams :=
  { gateLength := 3 / 4, looping := true, pitchExtent := 1 / 5, toggleRunning := false,
    steps := [{ pitch := 0, stepOn := false, gateMode := GateMode.singlePulse,
                pulseCount := 1 },
              { pitch := 1 / 2, stepOn := false, gateMode := GateMode.multiPulse,
                pulseCount := 2 }] }

theorem C6_all_disabled_freezes_witness :
    (areAllStepsSkipped allOffParams = true ∧
     (∀ i ∈ [clockTick], i.reset < 1 / 2)) ∧
    ((processBlock allOffParams runningIdleState [clockTick]).1.currentStep
       = runningIdleState.currentStep ∧
     (processBlock allOffParams runningIdleState [clockTick]).1.currentPulse
       = runningIdleState.currentPulse ∧
     ((processBlock allOffParams runningIdleState [clockTick]).1.currentGateOpen = true →
       runningIdleState.currentGateOpen = true)) :=
  ⟨⟨rfl, by
      intro i hi
      rw [List.mem_singleton] at hi
      subst hi
      norm_num [clockTick]⟩,
   C6_all_disabled_freezes allOffParams runningIdleState [clockTick] rfl
     (by
      intro i hi
      rw [List.mem_singleton] at hi
      subst hi
      norm_num [clockTick])⟩

lemma handleStart_not_running (s : SeqState) (h : s.currentlyRunning = false) :
    handleStart s = s := by
  simp [handleStart, h]

lemma triggerPhase_stopped_fields (p : SeqParams) (b : Bool) (r : SeqState)
    (hr : r.currentlyRunning = false) :
    (triggerPhase p b r).currentlyRunning = false ∧
    (triggerPhase p b r).currentStep = r.currentStep ∧
    (triggerPhase p b r).currentPulse = r.currentPulse ∧
    (triggerPhase p b r).currentGateOpen = r.currentGateOpen := by
  unfold triggerPhase
  split
  · rw [handleNewClockTrigger_not_running p r hr]
    exact ⟨hr, rfl, rfl, rfl⟩
  · exact ⟨hr, rfl, rfl, rfl⟩

lemma processSample_stopped (p : SeqParams) (b : Bool) (s : SeqState) (i : InputSample)
    (hr : s.currentlyRunning = false)
    (hstart : i.start < 1 / 2) (hreset : i.reset < 1 / 2) :
    (processSample p b s i).1.currentlyRunning = false ∧
    (processSample p b s i).1.currentStep = s.currentStep ∧
    (processSample p b s i).1.currentPulse = s.currentPulse ∧
    ((processSample p b s i).1.currentGateOpen = true →
      s.currentGateOpen = true) := by
  have hps : (processSample p b s i).1
      = updateHistory (pitchPhase p (updateGate (triggerPhase p b
          (handleStart (handleReset (readTransport s i)))))) := rfl
  have hr1 : (readTransport s i).currentlyRunning = false :=
    readTransport_running_of_not_running s i hr hstart
  have hrs : handleReset (readTransport s i) = readTransport s i :=
    handleReset_not_fire _ (readTransport_currentlyReset_eq_false s i hreset)
  have hss : handleStart (readTransport s i) = readTransport s i :=
    handleStart_not_running _ hr1
  rw [hps, hrs, hss]
  have htp := triggerPhase_stopped_fields p b (readTransport s i) hr1
  refine ⟨?_, ?_, ?_, ?_⟩
  · rw [updateHistory_currentlyRunning, pitchPhase_currentlyRunning,
        updateGate_currentlyRunning, htp.1]
  · rw [updateHistory_currentStep, pitchPhase_currentStep, updateGate_currentStep,
        htp.2.1, readTransport_currentStep]
  · rw [updateHistory_currentPulse, pitchPhase_currentPulse, updateGate_currentPulse,
        htp.2.2.1, readTransport_currentPulse]
  · intro h
    rw [updateHistory_currentGateOpen, pitchPhase_currentGateOpen] at h
    have h2 := updateGate_gate_mono _ h
    rw [htp.2.2.2, readTransport_currentGateOpen] at h2
    exact h2

/-- C8.  With looping disabled: (a) a clock trigger whose step advancement
wraps past the last step (the circular scan reaches an index at or beyond
numSteps) clears the running flag; (b) a clock trigger while not running only
records pulse timing — no step, pulse, gate or running change; (c) a
processed sample while not running, with the start channel below threshold
and no reset edge, keeps the engine not running, leaves step and pulse
unchanged, and never opens the gate — so gate activity only resumes on an
external reset edge or start edge. -/
theorem C8_autostop_and_freeze (p : SeqParams) (s t : SeqState) (b : Bool)
    (i : InputSample) :
    (p.looping = false → s.currentlyRunning = true →
      getNumPulsesForStep p s.currentStep ≤ s.currentPulse →
      p.steps.length ≤ scanNextOnStep p p.steps.length s.currentStep →
      (handleNewClockTrigger p s).currentlyRunning = false) ∧
    (t.currentlyRunning = false →
      handleNewClockTrigger p t = recordPulseTiming t) ∧
    (t.currentlyRunning = false → i.start < 1 / 2 → i.reset < 1 / 2 →
      ((processSample p b t i).1.currentlyRunning = false ∧
       (processSample p b t i).1.currentStep = t.currentStep ∧
       (processSample p b t i).1.currentPulse = t.currentPulse ∧
       ((processSample p b t i).1.currentGateOpen = true →
         t.currentGateOpen = true))) := by
  refine ⟨?_, handleNewClockTrigger_not_running p t, processSample_stopped p b t i⟩
  intro hl hr hp hw
  rw [handleNewClockTrigger_running p s hr, gatePhase_currentlyRunning,
      advanceStep_yes p (recordPulseTiming s) hp,
      HandleIncrementedStep_currentlyRunning]
  simp only [recordPulseTiming_currentStep]
  rw [if_pos ⟨hw, hl⟩]

/-- The single-enabled-step parameters with looping disabled. -/
def noLoopParams : SeqParams := { oneStepParams with looping := false }

/-- A running state on the single step with its pulse budget used up, so the
next clock trigger wraps the sequence. -/
def wrapReadyState : SeqState :=
  { zeroState with currentlyRunning := true, previouslyRunning := true,
                   currentStep := 0, currentPulse := 1,
                   samplesPerPulse := 100, samplesSinceLastPulse := 100 }

theorem C8_autostop_and_freeze_witness :
    (noLoopParams.looping = false ∧
     wrapReadyState.currentlyRunning = true ∧
     getNumPulsesForStep noLoopParams wrapReadyState.currentStep
       ≤ wrapReadyState.currentPulse ∧
     noLoopParams.steps.length
       ≤ scanNextOnStep noLoopParams noLoopParams.steps.length
           wrapReadyState.currentStep ∧
     zeroState.currentlyRunning = false ∧
     clockTick.start < 1 / 2 ∧ clockTick.reset < 1 / 2) ∧
    (handleNewClockTrigger noLoopParams wrapReadyState).currentlyRunning = false ∧
    handleNewClockTrigger noLoopParams zeroState = recordPulseTiming zeroState ∧
    ((processSample noLoopParams false zeroState clockTick).1.currentlyRunning = false ∧
     (processSample noLoopParams false zeroState clockTick).1.currentStep
       = zeroState.currentStep ∧
     (processSample noLoopParams false zeroState clockTick).1.currentPulse
       = zeroState.currentPulse ∧
     ((processSample noLoopParams false zeroState clockTick).1.currentGateOpen = true →
       zeroState.currentGateOpen = true)) :=
  ⟨⟨rfl, rfl, by decide, by decide, rfl, by norm_num [clockTick],
    by norm_num [clockTick]⟩,
   (C8_autostop_and_freeze noLoopParams wrapReadyState zeroState false clockTick).1
     rfl rfl (by decide) (by decide),
   (C8_autostop_and_freeze noLoopParams wrapReadyState zeroState false clockTick).2.1
     rfl,
   (C8_autostop_and_freeze noLoopParams wrapReadyState zeroState false clockTick).2.2
     rfl (by norm_num [clockTick]) (by norm_num [clockTick])⟩

end SynthVR
